import Mathlib

/-!
Verification of the Lesotho Healthcare Cost Prediction API
(`src/API/prediction.py`, with the heuristic fallback referenced from
`src/main.py`).

The embedding models:
- the request schema `PredictionInput` and its pydantic field constraints;
- the process-wide trained-model artifact (`best_model.pkl`, `scaler.pkl`,
  `feature_names.pkl`), loaded all-or-nothing in one try/except at startup,
  hence an `Option TrainedModelArtifact`; the fitted regression and the
  scaling transform are opaque external objects, modelled as fallible
  functions;
- the `/predict` handler `predict_healthcare_cost` including the pandas
  `get_dummies(..., drop_first=True)` encoding of a single-row frame and the
  `reindex(columns=feature_names, fill_value=0)` alignment step;
- the `/health` and `/model-info` handlers;
- Python `round(x, 2)` as exact rational rounding (banker's rounding);
- the heuristic fallback `predict_cost`, which is imported by `src/main.py`
  from the prediction module but is absent from the sources; it is modelled
  from the spec.
-/

/-- Sex enumeration, the pydantic `Literal["male", "female"]`. -/
inductive Sex where
  | male
  | female
deriving DecidableEq

/-- Region enumeration, the pydantic `Literal` of the 8 Lesotho regions. -/
inductive Region where
  | quthing
  | thabaTseka
  | buthaButhe
  | mafeteng
  | mohalesHoek
  | qachasNek
  | leribe
  | maseru
deriving DecidableEq

/-- Employment enumeration, `Literal["employed", "unemployed", "self-employed"]`. -/
inductive Employment where
  | employed
  | unemployed
  | selfEmployed
deriving DecidableEq

/-- Access enumeration, `Literal["easy", "moderate", "difficult"]`. -/
inductive Access where
  | easy
  | moderate
  | difficult
deriving DecidableEq

/-- Healthcare type enumeration, `Literal["public", "private"]`. -/
inductive HealthcareType where
  | publicCare
  | privateCare
deriving DecidableEq

/-- String form of a `Sex` value, as it appears in the request body. -/
def sexStr : Sex → String
  | .male => "male"
  | .female => "female"

/-- String form of a `Region` value, as it appears in the request body. -/
def regionStr : Region → String
  | .quthing => "Quthing"
  | .thabaTseka => "Thaba-Tseka"
  | .buthaButhe => "Butha-Buthe"
  | .mafeteng => "Mafeteng"
  | .mohalesHoek => "Mohale\x27s Hoek"
  | .qachasNek => "Qacha\x27s Nek"
  | .leribe => "Leribe"
  | .maseru => "Maseru"

/-- String form of an `Employment` value. -/
def employmentStr : Employment → String
  | .employed => "employed"
  | .unemployed => "unemployed"
  | .selfEmployed => "self-employed"

/-- String form of an `Access` value. -/
def accessStr : Access → String
  | .easy => "easy"
  | .moderate => "moderate"
  | .difficult => "difficult"

/-- String form of a `HealthcareType` value. -/
def healthcareTypeStr : HealthcareType → String
  | .publicCare => "public"
  | .privateCare => "private"

/-- The request record of `class PredictionInput(BaseModel)` in
`src/API/prediction.py` lines 37-49. The categorical fields are typed
enumerations (pydantic `Literal` types); the numeric fields carry their raw
values, constrained separately by `validatePredictionInput` (the pydantic
`Field(..., ge=..., le=...)` bounds). -/
structure PredictionInput where
  age : ℤ
  sex : Sex
  region : Region
  is_insured : ℤ
  employment : Employment
  household_size : ℤ
  primary_healthcare_access : Access
  annual_income : ℚ
  healthcare_type : HealthcareType
deriving DecidableEq

/-- The response record of `class PredictionOutput(BaseModel)`. -/
structure PredictionOutput where
  predicted_healthcare_cost : ℚ
  model_used : String
  confidence_info : String
deriving DecidableEq

/-- An HTTP error produced by `raise HTTPException(status_code=..., detail=...)`. -/
structure HTTPError where
  status_code : ℕ
  detail : String
deriving DecidableEq

deriving instance DecidableEq for Except

/-- The trained-model artifact of `src/API/prediction.py` lines 27-34:
`best_model.pkl`, `scaler.pkl` and `feature_names.pkl` are loaded together in
one try/except, so either all three are present or all are `None`; the whole
artifact is therefore an `Option TrainedModelArtifact` at the call sites.
The fitted regression and the fitted scaler are external opaque objects and
are modelled as fallible functions (a malformed stored artifact raises). -/
structure TrainedModelArtifact where
  modelPredict : List ℚ → Except String ℚ
  scalerTransform : List ℚ → Except String (List ℚ)
  feature_names : List String

/-- The constant `model_type = "Linear Regression"` set at load time. -/
def model_type : String := "Linear Regression"

/-- Python truthiness length: `len(xs) if xs else 0` on a list. -/
def pyLen (l : List String) : ℕ := if l.isEmpty then 0 else l.length

/-- Python's builtin `max` on two numbers: the second argument when it is
strictly larger, the first otherwise. -/
def pyMax (a b : ℚ) : ℚ := if a < b then b else a

/-- Banker's rounding of a rational to an integer, the rounding mode of
Python's builtin `round`. -/
def roundHalfEven (q : ℚ) : ℤ :=
  if q - Rat.floor q < 1 / 2 then Rat.floor q
  else if 1 / 2 < q - Rat.floor q then Rat.floor q + 1
  else if Rat.floor q % 2 = 0 then Rat.floor q else Rat.floor q + 1

/-- Python's `round(q, 2)` on an exact rational. -/
def pyRound2 (q : ℚ) : ℚ := (roundHalfEven (q * 100) : ℚ) / 100

/-- The unique values of a column of a single-row DataFrame: just the one
value present in the row. `pd.get_dummies` builds its category list from the
data it is given, so on a one-row frame each categorical column has exactly
one category. -/
def categoriesOf (v : String) : List String := [v]

/-- The dummy columns `pd.get_dummies(..., drop_first=True)` produces for one
categorical column of a single-row frame: one indicator column per category
after dropping the first category. Since a one-row frame has a single
category per column, `drop 1` removes it and no dummy column survives. -/
def getDummies (col v : String) : List (String × ℚ) :=
  ((categoriesOf v).drop 1).map (fun c => (col ++ "_" ++ c, if v = c then 1 else 0))

/-- The encoded single-row frame after
`pd.get_dummies(input_df, columns=categorical_columns, drop_first=True)`
(`src/API/prediction.py` lines 117-118): the non-categorical columns keep
their values, followed by the dummy expansions of `sex, region, employment,
primary_healthcare_access, healthcare_type`. -/
def encodeRow (r : PredictionInput) : List (String × ℚ) :=
  [("age", (r.age : ℚ)), ("is_insured", (r.is_insured : ℚ)),
   ("household_size", (r.household_size : ℚ)), ("annual_income", r.annual_income)]
  ++ getDummies "sex" (sexStr r.sex)
  ++ getDummies "region" (regionStr r.region)
  ++ getDummies "employment" (employmentStr r.employment)
  ++ getDummies "primary_healthcare_access" (accessStr r.primary_healthcare_access)
  ++ getDummies "healthcare_type" (healthcareTypeStr r.healthcare_type)

/-- The alignment step
`input_encoded.reindex(columns=feature_names, fill_value=0)`
(`src/API/prediction.py` line 121): the result has exactly the requested
columns in the requested order; a requested column present in the row keeps
its value, a requested column absent from the row is filled with 0, and any
column of the row not requested is dropped. -/
def reindexRow (fns : List String) (row : List (String × ℚ)) : List (String × ℚ) :=
  fns.map (fun n => (n, ((row.lookup n).getD 0)))

/-- The estimation body of the `try` block of `predict_healthcare_cost`
(`src/API/prediction.py` lines 111-131): encode, align, scale (the
`model_type == "Linear Regression"` branch is always taken since
`model_type` is the constant string), predict, and floor the result at
100 LSL (`prediction = max(100.0, prediction)`). -/
def estimateRaw (a : TrainedModelArtifact) (r : PredictionInput) : Except String ℚ :=
  match a.scalerTransform ((reindexRow a.feature_names (encodeRow r)).map Prod.snd) with
  | .error e => .error e
  | .ok input_scaled =>
      match a.modelPredict input_scaled with
      | .error e => .error e
      | .ok raw => .ok (pyMax 100 raw)

/-- The confidence string built in `src/API/prediction.py` lines 134-136. -/
def confidenceInfo (r : PredictionInput) : String :=
  let base := "Prediction based on Linear Regression trained on Lesotho healthcare data"
  if r.is_insured = 1 then
    base ++ ". Insurance coverage may reduce actual out-of-pocket costs."
  else base

/-- The `POST /predict` handler `predict_healthcare_cost`
(`src/API/prediction.py` lines 96-148): if any artifact component is `None`
(all-or-nothing, hence `none`), raise 500 "Model not loaded. Please check
server configuration."; otherwise run the estimation and on any exception
raise 400 "Prediction error: ..."; on success return the rounded floored
prediction with the model label and confidence string. -/
def predict_healthcare_cost (art : Option TrainedModelArtifact)
    (r : PredictionInput) : Except HTTPError PredictionOutput :=
  match art with
  | none =>
      .error { status_code := 500,
               detail := "Model not loaded. Please check server configuration." }
  | some a =>
      match estimateRaw a r with
      | .error e => .error { status_code := 400, detail := "Prediction error: " ++ e }
      | .ok prediction =>
          .ok { predicted_healthcare_cost := pyRound2 prediction,
                model_used := model_type,
                confidence_info := confidenceInfo r }

/-- Pydantic validation of the numeric field constraints of
`PredictionInput` (`src/API/prediction.py` lines 38-48), checked in field
declaration order; the reference behavior reports the first violated field.
The categorical `Literal` fields are already enforced by the enumeration
types of the record. -/
def validatePredictionInput (r : PredictionInput) : Except String PredictionInput :=
  if r.age < 18 ∨ 100 < r.age then .error "age must be between 18 and 100"
  else if r.is_insured ≠ 0 ∧ r.is_insured ≠ 1 then .error "is_insured must be 0 or 1"
  else if r.household_size < 1 ∨ 15 < r.household_size then
    .error "household_size must be between 1 and 15"
  else if r.annual_income < 5000 ∨ 200000 < r.annual_income then
    .error "annual_income must be between 5000 and 200000"
  else .ok r

/-- The full request pipeline for `POST /predict`: FastAPI validates the body
against `PredictionInput` before the handler runs; a validation failure is
returned as a 422 (a 400-class response) and the handler — hence the
Estimator — is never invoked. The boolean records whether the handler body
(the Estimator dispatch) ran. -/
def predictEndpoint (art : Option TrainedModelArtifact) (r : PredictionInput) :
    Except HTTPError PredictionOutput × Bool :=
  match validatePredictionInput r with
  | .error msg => (.error { status_code := 422, detail := msg }, false)
  | .ok inp => (predict_healthcare_cost art inp, true)

/-- The `/health` response record. -/
structure HealthResponse where
  status : String
  model_status : String
  features_loaded : ℕ
deriving DecidableEq

/-- The `GET /health` handler (`src/API/prediction.py` lines 86-94):
`status` is always "healthy"; `model_status` is "loaded" exactly when the
model is present; `features_loaded` is `len(feature_names) if feature_names
else 0`. -/
def health_check (art : Option TrainedModelArtifact) : HealthResponse :=
  { status := "healthy",
    model_status := if art.isSome then "loaded" else "not_loaded",
    features_loaded := match art with | none => 0 | some a => pyLen a.feature_names }

/-- The `/model-info` payload (the fields the claims are about). -/
structure ModelInfo where
  model_type : String
  features_count : ℕ
  feature_names : List String
deriving DecidableEq

/-- The loaded-model branch of `get_model_info` (`src/API/prediction.py`
lines 156-165): `features_count` is `len(feature_names) if feature_names
else 0`, and the `feature_names` field is `feature_names[:10] if
feature_names else []` — only the first 10 names. -/
def modelInfoOf (a : TrainedModelArtifact) : ModelInfo :=
  { model_type := model_type,
    features_count := pyLen a.feature_names,
    feature_names := if a.feature_names.isEmpty then [] else a.feature_names.take 10 }

/-- The `GET /model-info` handler (`src/API/prediction.py` lines 150-165):
raise 500 "Model not loaded" when the model is `None`, else return the
metadata. -/
def get_model_info (art : Option TrainedModelArtifact) : Except HTTPError ModelInfo :=
  match art with
  | none => .error { status_code := 500, detail := "Model not loaded" }
  | some a => .ok (modelInfoOf a)

/-- Modelled from the spec: the heuristic insurance contribution. The
heuristic fallback `predict_cost` is imported by `src/main.py` from the
prediction module but its definition is absent from `src/`; per the spec it
applies "a fixed discount if insured, fixed surcharge if not". -/
def insuranceContribution (ins : ℤ) : ℚ := if ins = 1 then -300 else 200

/-- Modelled from the spec: "healthcare-access contribution: one of three
fixed constants keyed by access-difficulty level". -/
def accessContribution : Access → ℚ
  | .easy => 0
  | .moderate => 100
  | .difficult => 250

/-- Modelled from the spec: "healthcare-type contribution: fixed surcharge
if private, zero if public". -/
def typeContribution : HealthcareType → ℚ
  | .publicCare => 0
  | .privateCare => 500

/-- Modelled from the spec: "employment contribution: one of three fixed
constants keyed by employment status". -/
def employmentContribution : Employment → ℚ
  | .employed => 100
  | .unemployed => 0
  | .selfEmployed => 50

/-- Modelled from the spec: "region contribution: one of eight fixed
constants keyed by region (capital region highest, most remote region
lowest/negative)" — Maseru is the capital, Thaba-Tseka the most remote. -/
def regionContribution : Region → ℚ
  | .maseru => 300
  | .leribe => 150
  | .buthaButhe => 100
  | .mafeteng => 50
  | .quthing => 0
  | .mohalesHoek => 0
  | .qachasNek => -50
  | .thabaTseka => -100

/-- Modelled from the spec: "sex contribution: small fixed surcharge for one
category". -/
def sexContribution : Sex → ℚ
  | .male => 50
  | .female => 0

/-- Modelled from the spec: the pre-floor sum of the heuristic formula of
`predict_cost` (absent from `src/`): base cost, a contribution linear in
`(age - 18)`, the insurance discount/surcharge, a contribution linear in
`annual_income`, a linear decreasing contribution in `(household_size - 1)`,
and the keyed constants for access, healthcare type, employment, region and
sex, all summed linearly. The deterministic variant is modelled: the
optional random perturbation is omitted. -/
def heuristicTotal (r : PredictionInput) : ℚ :=
  2000 + 20 * ((r.age : ℚ) - 18) + insuranceContribution r.is_insured
    + r.annual_income / 100 - 50 * ((r.household_size : ℚ) - 1)
    + accessContribution r.primary_healthcare_access
    + typeContribution r.healthcare_type
    + employmentContribution r.employment
    + regionContribution r.region
    + sexContribution r.sex

/-- Modelled from the spec: the heuristic fallback `predict_cost` (absent
from `src/`, imported by `src/main.py`): the linear sum of contributions,
floored at the fixed minimum of 500 ("The final value is floored at a fixed
minimum (observed: 500 or 1000)"). -/
def predict_cost (r : PredictionInput) : ℚ := pyMax 500 (heuristicTotal r)

/-- Validity of a request: every numeric field satisfies its declared
pydantic bound (the categorical fields are valid by type). -/
def ValidInput (r : PredictionInput) : Prop :=
  18 ≤ r.age ∧ r.age ≤ 100 ∧ (r.is_insured = 0 ∨ r.is_insured = 1) ∧
  1 ≤ r.household_size ∧ r.household_size ≤ 15 ∧
  5000 ≤ r.annual_income ∧ r.annual_income ≤ 200000

instance (r : PredictionInput) : Decidable (ValidInput r) := by
  unfold ValidInput
  infer_instance

/-- The concrete scenario request of the spec (section 8) and of the schema
example in `src/API/prediction.py` lines 52-64. -/
def exampleRequest : PredictionInput :=
  { age := 45, sex := .male, region := .maseru, is_insured := 1,
    employment := .employed, household_size := 4,
    primary_healthcare_access := .easy, annual_income := 50000,
    healthcare_type := .privateCare }

/-- A loadable artifact whose regression always returns 0: the scaler is the
identity and the model predicts a raw cost of 0 on every input. -/
def okArtifact : TrainedModelArtifact :=
  { modelPredict := fun _ => .ok 0,
    scalerTransform := fun xs => .ok xs,
    feature_names := ["age"] }

/-- A malformed stored artifact: its regression raises on every input. -/
def badArtifact : TrainedModelArtifact :=
  { modelPredict := fun _ => .error "malformed artifact",
    scalerTransform := fun xs => .ok xs,
    feature_names := ["age"] }

/-- An artifact with 11 stored feature names. -/
def artifact11 : TrainedModelArtifact :=
  { modelPredict := fun _ => .ok 0,
    scalerTransform := fun xs => .ok xs,
    feature_names := ["f1", "f2", "f3", "f4", "f5", "f6", "f7", "f8", "f9",
                      "f10", "f11"] }

/-- The response `predict_healthcare_cost` produces for `exampleRequest` with
`okArtifact` loaded: the raw regression output 0 is floored to 100 LSL. -/
def exampleOutput : PredictionOutput :=
  { predicted_healthcare_cost := pyRound2 100,
    model_used := "Linear Regression",
    confidence_info := "Prediction based on Linear Regression trained on Lesotho healthcare data. Insurance coverage may reduce actual out-of-pocket costs." }

/-- Python `max` agrees with the mathematical `max`. -/
theorem pyMax_eq_max (a b : ℚ) : pyMax a b = max a b := by
  unfold pyMax
  split
  · exact (max_eq_right (le_of_lt (by assumption))).symm
  · exact (max_eq_left (not_lt.mp (by assumption))).symm

/-- Python `max a b` returns its second argument when the first is no
larger. -/
theorem pyMax_eq_of_le {a b : ℚ} (h : a ≤ b) : pyMax a b = b := by
  unfold pyMax
  split
  · rfl
  · exact le_antisymm h (not_lt.mp (by assumption))

/-- Python `max` is bounded below by its first argument. -/
theorem le_pyMax_left (a b : ℚ) : a ≤ pyMax a b := by
  unfold pyMax
  split
  · exact le_of_lt (by assumption)
  · exact le_refl a

/-- Banker's rounding never rounds below the floor. -/
theorem roundHalfEven_ge_floor (q : ℚ) : Rat.floor q ≤ roundHalfEven q := by
  unfold roundHalfEven
  split
  · exact le_refl _
  split
  · omega
  split
  · exact le_refl _
  · omega

/-- Rounding to two decimals keeps a value that is at least 100 at least
100. -/
theorem pyRound2_ge_100 {p : ℚ} (h : 100 ≤ p) : 100 ≤ pyRound2 p := by
  have hfloor : (10000 : ℤ) ≤ Rat.floor (p * 100) := by
    rw [Rat.le_floor]
    push_cast
    linarith
  have hz : (10000 : ℤ) ≤ roundHalfEven (p * 100) :=
    le_trans hfloor (roundHalfEven_ge_floor _)
  have hzq : (10000 : ℚ) ≤ (roundHalfEven (p * 100) : ℚ) := by exact_mod_cast hz
  unfold pyRound2
  linarith

/-- A successful estimation always returns at least the 100 LSL floor
applied inside `estimateRaw`. -/
theorem estimateRaw_lower {a : TrainedModelArtifact} {r : PredictionInput} {p : ℚ}
    (h : estimateRaw a r = .ok p) : 100 ≤ p := by
  unfold estimateRaw at h
  split at h
  · exact absurd h (by simp)
  split at h
  · exact absurd h (by simp)
  · rw [Except.ok.injEq] at h
    rw [← h]
    exact le_pyMax_left 100 _

/-- Python truthiness length agrees with the real length. -/
theorem pyLen_eq_length (l : List String) : pyLen l = l.length := by
  cases l <;> simp [pyLen]

/-- The access contribution of the modelled heuristic is nonnegative. -/
theorem accessContribution_nonneg (a : Access) : 0 ≤ accessContribution a := by
  cases a <;> norm_num [accessContribution]

/-- The healthcare-type contribution of the modelled heuristic is
nonnegative. -/
theorem typeContribution_nonneg (t : HealthcareType) : 0 ≤ typeContribution t := by
  cases t <;> norm_num [typeContribution]

/-- The employment contribution of the modelled heuristic is nonnegative. -/
theorem employmentContribution_nonneg (e : Employment) :
    0 ≤ employmentContribution e := by
  cases e <;> norm_num [employmentContribution]

/-- The region contribution of the modelled heuristic is at least -100. -/
theorem regionContribution_ge (g : Region) : -100 ≤ regionContribution g := by
  cases g <;> norm_num [regionContribution]

/-- The sex contribution of the modelled heuristic is nonnegative. -/
theorem sexContribution_nonneg (s : Sex) : 0 ≤ sexContribution s := by
  cases s <;> norm_num [sexContribution]

/-- The insurance contribution of the modelled heuristic is at least
-300. -/
theorem insuranceContribution_ge (z : ℤ) : -300 ≤ insuranceContribution z := by
  unfold insuranceContribution
  split <;> norm_num

/-- On every valid request the pre-floor heuristic sum is at least 500, so
the fixed floor of `predict_cost` never binds on the valid domain. -/
theorem heuristicTotal_lower_bound (r : PredictionInput) (h : ValidInput r) :
    500 ≤ heuristicTotal r := by
  obtain ⟨h1, h2, _h3, h4, h5, h6, _h7⟩ := h
  have ha : (18 : ℚ) ≤ (r.age : ℚ) := by exact_mod_cast h1
  have hh : (r.household_size : ℚ) ≤ 15 := by exact_mod_cast h5
  have hacc := accessContribution_nonneg r.primary_healthcare_access
  have htyp := typeContribution_nonneg r.healthcare_type
  have hemp := employmentContribution_nonneg r.employment
  have hreg := regionContribution_ge r.region
  have hsex := sexContribution_nonneg r.sex
  have hins := insuranceContribution_ge r.is_insured
  unfold heuristicTotal
  linarith

/-- C1: counterexample. With no artifact loaded, `POST /predict` on the
concrete valid scenario request does not return a heuristic result at all:
`predict_healthcare_cost` fails with a 500 response "Model not loaded", so
no request ever reaches a Heuristic Path in `src/API/prediction.py`. -/
theorem claim_C1_counterexample :
    predict_healthcare_cost none exampleRequest =
      .error { status_code := 500,
               detail := "Model not loaded. Please check server configuration." } ∧
    ¬ ∃ out : PredictionOutput, predict_healthcare_cost none exampleRequest = .ok out := by
  constructor
  · rfl
  · rintro ⟨out, hout⟩
    simp [predict_healthcare_cost] at hout

/-- C1 (amended): when no TrainedModelArtifact is loaded, every valid
`POST /predict` call fails with the 500-class response "Model not loaded.
Please check server configuration."; the handler has no heuristic fallback
and never produces a predicted cost without the artifact. -/
theorem claim_C1 (r : PredictionInput) :
    predict_healthcare_cost none r =
      .error { status_code := 500,
               detail := "Model not loaded. Please check server configuration." } := rfl

/-- C2: counterexample. With a malformed stored artifact (its regression
raises on every input), the failure inside the Model Path is surfaced to the
caller with status code 400 — a 400-class response, not a 500-class one. -/
theorem claim_C2_counterexample :
    predict_healthcare_cost (some badArtifact) exampleRequest =
      .error { status_code := 400, detail := "Prediction error: malformed artifact" } := rfl

/-- C2 (amended): for every request that passes validation, an unexpected
fault inside the Model Path during estimation is surfaced to the caller as a
400-class response (status 400, detail "Prediction error: ..."), not a
500-class one: the handler catches every exception of the `try` block with
`raise HTTPException(status_code=400, ...)`. -/
theorem claim_C2 (a : TrainedModelArtifact) (r : PredictionInput) (e : String)
    (h : estimateRaw a r = .error e) :
    predict_healthcare_cost (some a) r =
      .error { status_code := 400, detail := "Prediction error: " ++ e } := by
  simp only [predict_healthcare_cost, h]

/-- C2: witness. The amended theorem applied to the malformed artifact and
the concrete scenario request. -/
theorem claim_C2_witness :
    predict_healthcare_cost (some badArtifact) exampleRequest =
      .error { status_code := 400, detail := "Prediction error: " ++ "malformed artifact" } :=
  claim_C2 badArtifact exampleRequest "malformed artifact" rfl

/-- C3: for every request on which estimation succeeds, the returned
`predicted_healthcare_cost` is at least the fixed 100 LSL floor of the Model
Path (`prediction = max(100.0, prediction)`), no matter how low the raw
regression output is, and rounding to two decimals preserves the floor. -/
theorem claim_C3 (a : TrainedModelArtifact) (r : PredictionInput)
    (out : PredictionOutput)
    (h : predict_healthcare_cost (some a) r = .ok out) :
    100 ≤ out.predicted_healthcare_cost := by
  simp only [predict_healthcare_cost] at h
  split at h
  · exact absurd h (by simp)
  · rename_i prediction heq
    rw [Except.ok.injEq] at h
    subst h
    exact pyRound2_ge_100 (estimateRaw_lower heq)

/-- C3: witness. The theorem applied to an artifact whose regression returns
a raw cost of 0 on the concrete scenario request: the response is floored to
100 LSL. -/
theorem claim_C3_witness : 100 ≤ exampleOutput.predicted_healthcare_cost :=
  claim_C3 okArtifact exampleRequest exampleOutput rfl

/-- C4: the feature-alignment step produces a vector whose columns are
exactly the artifact's stored feature names in their stored order: every
column the artifact expects that is absent from the one-hot encoded input
(whose reference levels were dropped by `drop_first=True`) is filled with 0,
every expected column present keeps its encoded value, and every extra
column not in the stored feature names is dropped. -/
theorem claim_C4 (r : PredictionInput) (fns : List String) :
    (reindexRow fns (encodeRow r)).map Prod.fst = fns ∧
    (∀ p ∈ reindexRow fns (encodeRow r), p.2 = ((encodeRow r).lookup p.1).getD 0) ∧
    (∀ p ∈ reindexRow fns (encodeRow r), p.1 ∈ fns) := by
  refine ⟨?_, ?_, ?_⟩
  · simp only [reindexRow]
    induction fns with
    | nil => rfl
    | cons x xs ih => simp [ih]
  · intro p hp
    simp only [reindexRow, List.mem_map] at hp
    obtain ⟨n, _hn, hpe⟩ := hp
    subst hpe
    rfl
  · intro p hp
    simp only [reindexRow, List.mem_map] at hp
    obtain ⟨n, hn, hpe⟩ := hp
    subst hpe
    exact hn

/-- C5: every request whose age is outside 18..100 is rejected by
validation with the age error message as a 422 (400-class) response, and the
Estimator is never invoked (the boolean of `predictEndpoint` is false). -/
theorem claim_C5 (art : Option TrainedModelArtifact) (r : PredictionInput)
    (h : r.age < 18 ∨ 100 < r.age) :
    predictEndpoint art r =
      (.error { status_code := 422, detail := "age must be between 18 and 100" }, false) := by
  unfold predictEndpoint validatePredictionInput
  rw [if_pos h]

/-- C5: witness. The concrete scenario request with age 17 is rejected
before estimation, with no artifact loaded. -/
theorem claim_C5_witness :
    predictEndpoint none { exampleRequest with age := 17 } =
      (.error { status_code := 422, detail := "age must be between 18 and 100" }, false) :=
  claim_C5 none { exampleRequest with age := 17 } (Or.inl (by decide))

/-- C6: for every pair of valid requests differing only in age, the
spec-modelled heuristic cost is strictly larger for the strictly larger age:
the age contribution is linear in `(age - 18)` with a positive slope, and on
the valid domain the fixed floor of `predict_cost` never binds. -/
theorem claim_C6 (r : PredictionInput) (a1 a2 : ℤ)
    (h1 : ValidInput { r with age := a1 }) (h2 : ValidInput { r with age := a2 })
    (hlt : a1 < a2) :
    predict_cost { r with age := a1 } < predict_cost { r with age := a2 } := by
  have b1 := heuristicTotal_lower_bound _ h1
  have b2 := heuristicTotal_lower_bound _ h2
  have hc : (a1 : ℚ) < (a2 : ℚ) := by exact_mod_cast hlt
  unfold predict_cost
  rw [pyMax_eq_of_le b1, pyMax_eq_of_le b2]
  obtain ⟨age, sex, region, ins, emp, hh, acc, inc, ht⟩ := r
  simp only [heuristicTotal]
  linarith

/-- C6: witness. The concrete scenario request at ages 30 and 40. -/
theorem claim_C6_witness :
    predict_cost { exampleRequest with age := 30 } <
      predict_cost { exampleRequest with age := 40 } :=
  claim_C6 exampleRequest 30 40 (by decide) (by decide) (by decide)

/-- C7: for every pair of valid requests identical except for `is_insured`,
the insured request yields a strictly lower spec-modelled heuristic cost
than the uninsured one: the insurance contribution is a fixed discount when
insured and a fixed surcharge when not, and on the valid domain the fixed
floor of `predict_cost` never binds. -/
theorem claim_C7 (r : PredictionInput)
    (hi : ValidInput { r with is_insured := 1 })
    (hu : ValidInput { r with is_insured := 0 }) :
    predict_cost { r with is_insured := 1 } < predict_cost { r with is_insured := 0 } := by
  have b1 := heuristicTotal_lower_bound _ hi
  have b0 := heuristicTotal_lower_bound _ hu
  unfold predict_cost
  rw [pyMax_eq_of_le b1, pyMax_eq_of_le b0]
  obtain ⟨age, sex, region, ins, emp, hh, acc, inc, ht⟩ := r
  simp only [heuristicTotal, insuranceContribution]
  norm_num

/-- C7: witness. The concrete scenario request insured versus uninsured. -/
theorem claim_C7_witness :
    predict_cost { exampleRequest with is_insured := 1 } <
      predict_cost { exampleRequest with is_insured := 0 } :=
  claim_C7 exampleRequest (by decide) (by decide)

/-- C8: `GET /health` always succeeds: its status field is always
"healthy", its `model_status` is "loaded" exactly when the artifact is
present (and the not-loaded value "not_loaded" otherwise), and
`features_loaded` is the number of stored feature names, 0 when no
feature-name list is loaded. -/
theorem claim_C8 (art : Option TrainedModelArtifact) :
    (health_check art).status = "healthy" ∧
    ((health_check art).model_status = "loaded" ↔ art.isSome = true) ∧
    (health_check art).features_loaded =
      (match art with | none => 0 | some a => a.feature_names.length) := by
  cases art with
  | none =>
      refine ⟨rfl, ?_, rfl⟩
      simp [health_check]
  | some a =>
      refine ⟨rfl, ?_, ?_⟩
      · simp [health_check]
      · simp [health_check, pyLen_eq_length]

/-- C9: the prediction computation is a pure, deterministic function of the
loaded artifact state and the request: with the artifact state fixed, two
invocations on equal requests return equal responses (in particular equal
`predicted_healthcare_cost` values). -/
theorem claim_C9 (art : Option TrainedModelArtifact) (r1 r2 : PredictionInput)
    (h : r1 = r2) :
    predict_healthcare_cost art r1 = predict_healthcare_cost art r2 := by
  rw [h]

/-- C9: witness. Two invocations on the concrete scenario request with the
same loaded artifact agree. -/
theorem claim_C9_witness :
    predict_healthcare_cost (some okArtifact) exampleRequest =
      predict_healthcare_cost (some okArtifact) exampleRequest :=
  claim_C9 (some okArtifact) exampleRequest exampleRequest rfl

/-- C10: `GET /model-info` fails with a 500 response "Model not loaded" when
the model is absent; when the artifact is loaded it reports
`features_count` as the full length of the stored feature-name list but its
`feature_names` field is only the first 10 stored names, so the two disagree
whenever more than 10 features exist. -/
theorem claim_C10 :
    get_model_info none = .error { status_code := 500, detail := "Model not loaded" } ∧
    (∀ a : TrainedModelArtifact, get_model_info (some a) = .ok (modelInfoOf a)) ∧
    (∀ a : TrainedModelArtifact,
      (modelInfoOf a).features_count = a.feature_names.length) ∧
    (∀ a : TrainedModelArtifact,
      (modelInfoOf a).feature_names = a.feature_names.take 10) ∧
    (∀ a : TrainedModelArtifact, 10 < a.feature_names.length →
      (modelInfoOf a).feature_names.length < (modelInfoOf a).features_count) := by
  refine ⟨rfl, fun a => rfl, fun a => ?_, fun a => ?_, fun a h => ?_⟩
  · simp [modelInfoOf, pyLen_eq_length]
  · cases hl : a.feature_names with
    | nil => simp [modelInfoOf, hl]
    | cons x xs => simp [modelInfoOf, hl]
  · have hne : a.feature_names.isEmpty = false := by
      cases hl : a.feature_names with
      | nil =>
          rw [hl] at h
          simp at h
      | cons x xs => rfl
    simp [modelInfoOf, pyLen_eq_length, hne, List.length_take]
    omega

/-- C10: witness. On an artifact with 11 stored feature names the reported
name list is shorter than the reported feature count. -/
theorem claim_C10_witness :
    (modelInfoOf artifact11).feature_names.length < (modelInfoOf artifact11).features_count :=
  claim_C10.2.2.2.2 artifact11 (by decide)
